/-
Verification of the AI-Code-Mentor backend against its specification.

The development shallowly embeds the Python sources:
  * backend/core/code_parser.py   : syntax pre-check and function-name listing
  * backend/core/llm_services.py  : provider initialization and the four
                                    LLM service functions
  * backend/main.py               : the four FastAPI POST endpoints

The standard-library parser `ast.parse` and the LLM chains are external
effects: they are passed in as explicit parameters (`astParse`, `ChainEnv`),
and every theorem quantifies over them.  The Python `ast` node structure is
modelled by the inductive `Stmt` below, with the breadth-first `ast.walk`
traversal reproduced faithfully (fuel-indexed so it computes; the fuel is
the exact node count, which the traversal lemmas show is enough).
Dictionaries returned by the service layer are association lists of
`PyVal`, mirroring the dict literals in llm_services.py.
-/
import Mathlib

set_option maxHeartbeats 1000000

namespace CodeMentor

/-! ## Python AST model (backend/core/code_parser.py)

A statement node of the Python `ast` module, restricted to the shape that
matters for `get_function_definitions`: which statements carry a name, and
which carry nested statement bodies.  `functionDef`, `asyncFunctionDef` and
`classDef` mirror `ast.FunctionDef`, `ast.AsyncFunctionDef`,
`ast.ClassDef`; `compound` stands for `if`/`for`/`while`/`with`/`try`
blocks (nested bodies, no name); `simple` stands for statements without
nested statements (`pass`, expressions, assignments, ...). -/
inductive Stmt where
  | functionDef (name : String) (body : List Stmt)
  | asyncFunctionDef (name : String) (body : List Stmt)
  | classDef (name : String) (body : List Stmt)
  | compound (body : List Stmt)
  | simple

/-- `ast.Module`: a parsed module is its list of top-level statements. -/
structure PyModule where
  body : List Stmt

/-- The statement children of a node, as produced by `ast.iter_child_nodes`
(restricted to statement children; expression/argument children contain no
`FunctionDef` nodes in this model). -/
def Stmt.children : Stmt → List Stmt
  | .functionDef _ b => b
  | .asyncFunctionDef _ b => b
  | .classDef _ b => b
  | .compound b => b
  | .simple => []

mutual
/-- Total number of nodes in a statement subtree. -/
def Stmt.size : Stmt → Nat
  | .functionDef _ b => 1 + sizeList b
  | .asyncFunctionDef _ b => 1 + sizeList b
  | .classDef _ b => 1 + sizeList b
  | .compound b => 1 + sizeList b
  | .simple => 1

/-- Total number of nodes in a list of statement subtrees. -/
def sizeList : List Stmt → Nat
  | [] => 0
  | s :: r => Stmt.size s + sizeList r
end

/-- Breadth-first traversal of a queue of statement nodes, exactly the loop
of `ast.walk` (pop the front, yield it, push its children at the back).
The `fuel` argument makes the definition structurally recursive; any fuel
of at least `sizeList q` gives the full traversal. -/
def walkAux : Nat → List Stmt → List Stmt
  | 0, _ => []
  | _ + 1, [] => []
  | fuel + 1, s :: rest => s :: walkAux fuel (rest ++ s.children)

/-- `ast.walk` on a queue of statements: breadth-first order. -/
def walk (q : List Stmt) : List Stmt := walkAux (sizeList q) q

/-- The name yielded for a node by the `isinstance(node, ast.FunctionDef)`
test: `some name` exactly for (synchronous) function definitions. -/
def Stmt.funDefName : Stmt → Option String
  | .functionDef n _ => some n
  | _ => none

/-- `get_function_definitions` (code_parser.py lines 19–25): walk the whole
tree with `ast.walk` and collect the name of every `ast.FunctionDef` node
encountered. -/
def get_function_definitions (tree : PyModule) : List String :=
  (walk tree.body).filterMap Stmt.funDefName

/-- Modelled from the spec: "a list of top-level function names" — only the
(synchronous) function definitions appearing directly in the module body,
used as the comparison point for the refinement claim about
`get_function_definitions`. -/
def topLevelFunctionNames (tree : PyModule) : List String :=
  tree.body.filterMap Stmt.funDefName

mutual
/-- Whether a subtree contains, at any depth, a (synchronous) function
definition named `a`.  Reference predicate for characterizing
`get_function_definitions`. -/
def Stmt.hasFunNamed (a : String) : Stmt → Bool
  | .functionDef n b => (n == a) || listHasFunNamed a b
  | .asyncFunctionDef _ b => listHasFunNamed a b
  | .classDef _ b => listHasFunNamed a b
  | .compound b => listHasFunNamed a b
  | .simple => false

/-- Whether any subtree of the list contains a function definition named
`a`. -/
def listHasFunNamed (a : String) : List Stmt → Bool
  | [] => false
  | s :: r => Stmt.hasFunNamed a s || listHasFunNamed a r
end

/-! ## parse_python_code (code_parser.py lines 6–16)

`ast.parse` is an external call; it is modelled as a parameter returning
either a parse tree or a `SyntaxError` message.  `parse_python_code` wraps
it in `try/except SyntaxError`, turning the failure into `None`. -/

/-- `parse_python_code`: return the tree from `ast.parse`, or `none` when
the parser signals a syntax error. -/
def parse_python_code (astParse : String → Except String PyModule)
    (code : String) : Option PyModule :=
  match astParse code with
  | .ok tree => some tree
  | .error _ => none

/-! ## Service functions (backend/core/llm_services.py lines 132–173)

A Python value as it occurs in the result dictionaries: a string, a list,
or a dict (association list keyed by strings).  The dicts returned by the
four service functions are embedded as `List (String × PyVal)`. -/
inductive PyVal where
  | str (s : String)
  | list (l : List PyVal)
  | dict (d : List (String × PyVal))

/-- A result dictionary of the service layer. -/
abbrev PyDict := List (String × PyVal)

/-- The four LLM chains (`explain_chain` ... `what_if_chain`).  Each
`ainvoke` call is an external network effect: it either returns the LLM
response text or raises, which the model renders as `Except String String`
(error message or response).  The what-if chain also receives the user
question. -/
structure ChainEnv where
  explain : String → Except String String
  suggest : String → Except String String
  debug : String → Except String String
  whatIf : String → String → Except String String

/-- Outcome of one service function: the returned dict, plus an
instrumentation bit recording whether the `ainvoke` of the chain (the network
call) was reached. -/
structure ServiceOutput where
  result : PyDict
  llmInvoked : Bool

/-- Fixed message of the syntax pre-check failure (llm_services.py:135). -/
def syntaxErrorMsg : String := "Syntax error in code, cannot parse."

/-- `get_code_explanation`: syntax pre-check via `parse_python_code`, then
the explain chain; any chain exception becomes the generic internal-error
dict. -/
def get_code_explanation (astParse : String → Except String PyModule)
    (env : ChainEnv) (code : String) : ServiceOutput :=
  match parse_python_code astParse code with
  | none => ⟨[("error", .str syntaxErrorMsg)], false⟩
  | some _ =>
    match env.explain code with
    | .ok explanationText => ⟨[("overall_summary", .str explanationText)], true⟩
    | .error _ =>
      ⟨[("error", .str "Failed to get explanation from LLM: An internal error occurred.")], true⟩

/-- Python whitespace for `str.strip()`: space, tab, newline, carriage
return, vertical tab, form feed (exotic Unicode spaces are out of scope of
this model). -/
def isPySpace (c : Char) : Bool := c.isWhitespace || c = '\x0b' || c = '\x0c'

/-- Split a character list at every occurrence of `sep`, keeping empty
segments, as Python `str.split(sep)` does: a list of `n` separators yields
`n + 1` segments. -/
def splitCharsOn (sep : Char) : List Char → List (List Char)
  | [] => [[]]
  | c :: cs =>
    if c = sep then [] :: splitCharsOn sep cs
    else
      match splitCharsOn sep cs with
      | [] => [[c]]
      | l :: ls => (c :: l) :: ls

/-- Python `text.split(sep)` for a single-character separator. -/
def pySplit (text : String) (sep : Char) : List String :=
  (splitCharsOn sep text.data).map String.mk

/-- Python `text.strip()`: drop leading and trailing whitespace. -/
def pyStrip (text : String) : String :=
  String.mk (((text.data.dropWhile isPySpace).reverse.dropWhile isPySpace).reverse)

/-- The list comprehension
`[s.strip() for s in text.split(chr 10) if s.strip()]` shared by the
suggest and debug post-processing: split on newline, keep the lines whose
strip is non-empty (Python truthiness of the stripped string), and yield
the stripped line. -/
def stripNonBlankLines (text : String) : List String :=
  (pySplit text '\n').filterMap
    (fun s => if pyStrip s = "" then none else some (pyStrip s))

/-- `get_code_suggestions`: no syntax pre-check; invoke the suggest chain
and post-process its text into a list of non-blank stripped lines. -/
def get_code_suggestions (env : ChainEnv) (code : String) : ServiceOutput :=
  match env.suggest code with
  | .ok suggestionsText =>
    ⟨[("suggestions", .list ((stripNonBlankLines suggestionsText).map PyVal.str))], true⟩
  | .error _ =>
    ⟨[("error", .str "Failed to get suggestions from LLM: An internal error occurred.")], true⟩

/-- The debug post-processing
`[\x7b"issue": line.strip()\x7d for line in text.split(chr 10) if line.strip()]`:
one single-key record per non-blank line. -/
def debugRecords (text : String) : List PyDict :=
  (pySplit text '\n').filterMap
    (fun line => if pyStrip line = "" then none else some [("issue", .str (pyStrip line))])

/-- `get_code_debugging_info`: no syntax pre-check; invoke the debug chain
and wrap each non-blank stripped line in an `issue` record. -/
def get_code_debugging_info (env : ChainEnv) (code : String) : ServiceOutput :=
  match env.debug code with
  | .ok debugText =>
    ⟨[("potential_bugs", .list ((debugRecords debugText).map PyVal.dict))], true⟩
  | .error _ =>
    ⟨[("error", .str "Failed to get debugging info from LLM: An internal error occurred.")], true⟩

/-- `answer_what_if_question`: no syntax pre-check; invoke the what-if
chain with the code and the user question. -/
def answer_what_if_question (env : ChainEnv) (code : String)
    (user_question : String) : ServiceOutput :=
  match env.whatIf code user_question with
  | .ok responseText => ⟨[("explanation", .str responseText)], true⟩
  | .error _ =>
    ⟨[("error", .str "Failed to answer \u0027what if\u0027 question: An internal error occurred.")], true⟩

/-! ## Provider selection and module initialization
(backend/core/llm_services.py lines 25–96)

At import time the module reads `LLM_PROVIDER` (default `groq`,
lowercased), looks the provider up in `PROVIDER_CONFIG`, reads its API
key, and constructs the client; on an unsupported provider, a falsy key,
or a construction exception, `llm` stays `None` and the module raises
`RuntimeError`, so the process refuses to start. -/

/-- Python truthiness of an optional string (`if not api_key`,
`if not payload.user_question`): falsy when absent or empty. -/
def optStrFalsy : Option String → Bool
  | none => true
  | some s => s == ""

/-- `PROVIDER_CONFIG`: provider name ↦ (model name, API key variable). -/
def PROVIDER_CONFIG : List (String × String × String) :=
  [("openai", "gpt-3.5-turbo", "OPENAI_API_KEY"),
   ("anthropic", "claude-3-sonnet-20240229", "ANTHROPIC_API_KEY"),
   ("groq", "llama3-8b-8192", "GROQ_API_KEY"),
   ("google", "gemini-pro", "GOOGLE_API_KEY")]

/-- The process environment and the external client constructor: `getenv`
models `os.getenv`, and `construct provider model` models calling the
provider class, which either returns a client (rendered as `Unit`) or
raises. -/
structure InitEnv where
  getenv : String → Option String
  construct : String → String → Except String Unit

/-- Python `str.lower()` (ASCII case folding suffices for provider
names). -/
def pyLower (s : String) : String := String.mk (s.data.map Char.toLower)

/-- `LLM_PROVIDER = os.getenv(..., "groq").lower()` of llm_services.py. -/
def LLM_PROVIDER (env : InitEnv) : String :=
  pyLower ((env.getenv "LLM_PROVIDER").getD "groq")

/-- The module-level initialization of `llm`: `some (provider, model)` when
a client was successfully constructed, `none` in every failure branch
(unsupported provider, missing/empty API key, construction exception). -/
def initLLM (env : InitEnv) : Option (String × String) :=
  match List.lookup (LLM_PROVIDER env) PROVIDER_CONFIG with
  | none => none
  | some (model, keyName) =>
    if optStrFalsy (env.getenv keyName) then none
    else
      match env.construct (LLM_PROVIDER env) model with
      | .ok _ => some (LLM_PROVIDER env, model)
      | .error _ => none

/-- Message of the `RuntimeError` raised when `llm is None`
(llm_services.py:93). -/
def runtimeErrorMsg : String :=
  "Failed to initialize any LLM provider. Please check your .env configuration and installed packages."

/-- Import-time behaviour of the module: either the initialized client, or
the `RuntimeError` that aborts process startup. -/
def moduleInit (env : InitEnv) : Except String (String × String) :=
  match initLLM env with
  | none => .error runtimeErrorMsg
  | some client => .ok client

/-! ## FastAPI endpoints (backend/main.py)

Each POST handler receives the already-validated `CodeInput` payload,
checks its required field for Python truthiness, calls the service
function, and re-raises any `error` entry of the result dict as an
HTTP 500 `HTTPException`; otherwise it builds the response model from the
result dict.  The handler result is `Except HTTPException <response>`,
paired with the same network-call instrumentation bit. -/

/-- `CodeInput` (backend/models/schemas.py): request payload. -/
structure CodeInput where
  code : String
  language : String := "python"
  user_question : Option String := none

/-- `fastapi.HTTPException`: an HTTP-level error response. -/
structure HTTPException where
  status_code : Nat
  detail : String

/-- `ExplanationResponse` (schemas.py). -/
structure ExplanationResponse where
  line_by_line : Option (List (Nat × String)) := none
  overall_summary : Option String := none
  error : Option String := none

/-- `SuggestionResponse` (schemas.py). -/
structure SuggestionResponse where
  suggestions : Option (List String) := none
  error : Option String := none

/-- `DebugResponse` (schemas.py). -/
structure DebugResponse where
  potential_bugs : Option (List PyDict) := none
  error : Option String := none

/-- `WhatIfResponse` (schemas.py). -/
structure WhatIfResponse where
  explanation : Option String := none
  modified_code : Option String := none
  error : Option String := none

/-- String value of a key of a result dict, when present. -/
def lookupStr (k : String) (d : PyDict) : Option String :=
  match List.lookup k d with
  | some (.str s) => some s
  | _ => none

/-- String-list value of a key of a result dict, when present. -/
def lookupStrList (k : String) (d : PyDict) : Option (List String) :=
  match List.lookup k d with
  | some (.list l) => some (l.filterMap fun v => match v with | .str s => some s | _ => none)
  | _ => none

/-- Dict-list value of a key of a result dict, when present. -/
def lookupDictList (k : String) (d : PyDict) : Option (List PyDict) :=
  match List.lookup k d with
  | some (.list l) => some (l.filterMap fun v => match v with | .dict r => some r | _ => none)
  | _ => none

/-- Python truthiness of `result.get("error")`. -/
def errTruthy (d : PyDict) : Bool :=
  match List.lookup "error" d with
  | some (.str s) => s != ""
  | some (.list l) => !l.isEmpty
  | some (.dict r) => !r.isEmpty
  | none => false

/-- `POST /explain` handler `explain_code` (main.py lines 39–47). -/
def explain_code (astParse : String → Except String PyModule) (env : ChainEnv)
    (payload : CodeInput) : Except HTTPException ExplanationResponse × Bool :=
  if payload.code = "" then
    (.error ⟨400, "No code provided"⟩, false)
  else
    let out := get_code_explanation astParse env payload.code
    if errTruthy out.result then
      (.error ⟨500, (lookupStr "error" out.result).getD ""⟩, out.llmInvoked)
    else
      (.ok { overall_summary := lookupStr "overall_summary" out.result,
             error := lookupStr "error" out.result }, out.llmInvoked)

/-- `POST /suggest` handler `suggest_improvements` (main.py lines 49–57). -/
def suggest_improvements (env : ChainEnv)
    (payload : CodeInput) : Except HTTPException SuggestionResponse × Bool :=
  if payload.code = "" then
    (.error ⟨400, "No code provided"⟩, false)
  else
    let out := get_code_suggestions env payload.code
    if errTruthy out.result then
      (.error ⟨500, (lookupStr "error" out.result).getD ""⟩, out.llmInvoked)
    else
      (.ok { suggestions := lookupStrList "suggestions" out.result,
             error := lookupStr "error" out.result }, out.llmInvoked)

/-- `POST /debug` handler `debug_code` (main.py lines 59–67). -/
def debug_code (env : ChainEnv)
    (payload : CodeInput) : Except HTTPException DebugResponse × Bool :=
  if payload.code = "" then
    (.error ⟨400, "No code provided"⟩, false)
  else
    let out := get_code_debugging_info env payload.code
    if errTruthy out.result then
      (.error ⟨500, (lookupStr "error" out.result).getD ""⟩, out.llmInvoked)
    else
      (.ok { potential_bugs := lookupDictList "potential_bugs" out.result,
             error := lookupStr "error" out.result }, out.llmInvoked)

/-- `POST /whatif` handler `what_if_scenario` (main.py lines 69–77). -/
def what_if_scenario (env : ChainEnv)
    (payload : CodeInput) : Except HTTPException WhatIfResponse × Bool :=
  if payload.code = "" || optStrFalsy payload.user_question then
    (.error ⟨400, "Code and user question required"⟩, false)
  else
    let out := answer_what_if_question env payload.code ((payload.user_question).getD "")
    if errTruthy out.result then
      (.error ⟨500, (lookupStr "error" out.result).getD ""⟩, out.llmInvoked)
    else
      (.ok { explanation := lookupStr "explanation" out.result,
             error := lookupStr "error" out.result }, out.llmInvoked)

/-! ## Concrete environments for evaluating the model -/

/-- The keys of a result dict, in order. -/
def resultKeys (d : PyDict) : List String := d.map Prod.fst

/-- A parser that rejects every input with a syntax error (the behaviour of
`ast.parse` on syntactically invalid text). -/
def failParse : String → Except String PyModule :=
  fun _ => .error "invalid syntax"

/-- A parser that accepts every input with an empty module (the behaviour
of `ast.parse` on trivia such as the empty program). -/
def okParse : String → Except String PyModule :=
  fun _ => .ok ⟨[]⟩

/-- Chains whose network calls all succeed with the fixed response
`t`. -/
def constChains (t : String) : ChainEnv :=
  ⟨fun _ => .ok t, fun _ => .ok t, fun _ => .ok t, fun _ _ => .ok t⟩

/-- A process environment with no variables set at all, whose client
constructor would succeed. -/
def emptyInitEnv : InitEnv :=
  ⟨fun _ => none, fun _ _ => .ok ()⟩

/-! # Theorems -/

/-! ### Structural lemmas about the breadth-first walk -/

theorem sizeList_append (a b : List Stmt) :
    sizeList (a ++ b) = sizeList a + sizeList b := by
  induction a with
  | nil => simp [sizeList]
  | cons s r ih => simp [sizeList, ih, Nat.add_assoc]

theorem size_pos (s : Stmt) : 0 < s.size := by
  cases s <;> simp [Stmt.size]

theorem size_eq_one_add_children (s : Stmt) :
    s.size = 1 + sizeList s.children := by
  cases s <;> rfl

theorem hasFunNamed_eq (a : String) (s : Stmt) :
    Stmt.hasFunNamed a s =
      ((match s.funDefName with | some n => n == a | none => false)
        || listHasFunNamed a s.children) := by
  cases s <;> rfl

theorem listHasFunNamed_append (a : String) (x y : List Stmt) :
    listHasFunNamed a (x ++ y) = (listHasFunNamed a x || listHasFunNamed a y) := by
  induction x with
  | nil => simp [listHasFunNamed]
  | cons s r ih => simp [listHasFunNamed, ih, Bool.or_assoc]

/-- Correctness of the fuelled breadth-first walk: with enough fuel, the
collected function names are exactly the names of function-definition
nodes occurring anywhere below the queue. -/
theorem mem_filterMap_walkAux (a : String) :
    ∀ (fuel : Nat) (q : List Stmt), sizeList q ≤ fuel →
      (a ∈ (walkAux fuel q).filterMap Stmt.funDefName ↔ listHasFunNamed a q = true)
  | fuel, [], _ => by cases fuel <;> simp [walkAux, listHasFunNamed]
  | 0, s :: r, h => by
      have hp := size_pos s
      simp [sizeList] at h
      omega
  | fuel + 1, s :: rest, h => by
      have hsz : sizeList (s :: rest) = s.size + sizeList rest := rfl
      have hle : sizeList (rest ++ s.children) ≤ fuel := by
        rw [sizeList_append]
        have hc := size_eq_one_add_children s
        omega
      have ih := mem_filterMap_walkAux a fuel (rest ++ s.children) hle
      rw [listHasFunNamed_append] at ih
      show a ∈ (s :: walkAux fuel (rest ++ s.children)).filterMap Stmt.funDefName ↔ _
      have hrhs : listHasFunNamed a (s :: rest)
          = (Stmt.hasFunNamed a s || listHasFunNamed a rest) := rfl
      rw [hrhs, hasFunNamed_eq]
      cases hfd : s.funDefName with
      | none =>
        simp only [List.filterMap_cons, hfd, ih, Bool.false_or, Bool.or_eq_true]
        tauto
      | some n =>
        simp only [List.filterMap_cons, hfd, List.mem_cons, ih, Bool.or_eq_true,
          beq_iff_eq]
        constructor
        · rintro (h1 | h2 | h3)
          · exact Or.inl (Or.inl h1.symm)
          · exact Or.inr h2
          · exact Or.inl (Or.inr h3)
        · rintro ((h1 | h2) | h3)
          · exact Or.inl h1.symm
          · exact Or.inr (Or.inr h2)
          · exact Or.inr (Or.inl h3)

/-! ### Claims about the syntax pre-check and function listing -/

/-- C8: `parse_python_code` is total over parse failures: it returns the
parse tree when `ast.parse` succeeds and `None` when the parser signals a
syntax error; no exception reaches the caller. -/
theorem parse_python_code_total (astParse : String → Except String PyModule)
    (code : String) :
    (∃ tree, astParse code = .ok tree ∧ parse_python_code astParse code = some tree) ∨
    ((∃ msg, astParse code = .error msg) ∧ parse_python_code astParse code = none) := by
  cases h : astParse code with
  | ok t => exact .inl ⟨t, rfl, by simp [parse_python_code, h]⟩
  | error e => exact .inr ⟨⟨e, rfl⟩, by simp [parse_python_code, h]⟩

/-- C3 (counterexample): on the parse tree of
`def f():` / (indented) `def g(): pass`, `get_function_definitions` also
returns the nested name `g`, so it differs from the list of top-level
function names. -/
theorem get_function_definitions_includes_nested :
    get_function_definitions
        ⟨[Stmt.functionDef "f" [Stmt.functionDef "g" [Stmt.simple]]]⟩ = ["f", "g"] ∧
    topLevelFunctionNames
        ⟨[Stmt.functionDef "f" [Stmt.functionDef "g" [Stmt.simple]]]⟩ = ["f"] ∧
    get_function_definitions
        ⟨[Stmt.functionDef "f" [Stmt.functionDef "g" [Stmt.simple]]]⟩ ≠
      topLevelFunctionNames
        ⟨[Stmt.functionDef "f" [Stmt.functionDef "g" [Stmt.simple]]]⟩ :=
  ⟨rfl, rfl, by decide⟩

/-- C3 (amended): `get_function_definitions` returns the names of all
(synchronous) function definitions occurring anywhere in the tree, nested
functions and methods included: a name is in the returned list exactly
when some `FunctionDef` node of that name occurs in the module. -/
theorem get_function_definitions_mem_iff (tree : PyModule) (a : String) :
    a ∈ get_function_definitions tree ↔ listHasFunNamed a tree.body = true :=
  mem_filterMap_walkAux a (sizeList tree.body) tree.body le_rfl

/-- C1: when the syntax pre-check fails, `get_code_explanation` returns
the fixed syntax-error dict and the explain chain (the network call) is
never invoked. -/
theorem get_code_explanation_syntax_short_circuit
    (astParse : String → Except String PyModule) (env : ChainEnv) (code : String)
    (h : parse_python_code astParse code = none) :
    (get_code_explanation astParse env code).result
        = [("error", PyVal.str syntaxErrorMsg)] ∧
    (get_code_explanation astParse env code).llmInvoked = false := by
  simp [get_code_explanation, h]

/-- Witness for C1 at the concrete invalid program `def f(:`. -/
theorem get_code_explanation_syntax_short_circuit_witness :
    parse_python_code failParse "def f(:" = none ∧
    ((get_code_explanation failParse (constChains "ok") "def f(:").result
        = [("error", PyVal.str syntaxErrorMsg)] ∧
     (get_code_explanation failParse (constChains "ok") "def f(:").llmInvoked = false) :=
  ⟨rfl, get_code_explanation_syntax_short_circuit failParse (constChains "ok") "def f(:" rfl⟩

/-! ### The suggest/debug post-processing -/

theorem dropWhile_rdropWhile_self (l : List Char)
    (h : l.dropWhile isPySpace = l) :
    (l.rdropWhile isPySpace).dropWhile isPySpace = l.rdropWhile isPySpace := by
  obtain ⟨r, hr⟩ := List.rdropWhile_prefix isPySpace l
  cases hrd : List.rdropWhile isPySpace l with
  | nil => rfl
  | cons c t =>
    rw [List.dropWhile_cons]
    have hl : l = c :: (t ++ r) := by rw [← hr, hrd]; rfl
    by_cases hp : isPySpace c
    · exfalso
      rw [hl, List.dropWhile_cons, if_pos hp] at h
      have hlen := (List.dropWhile_sublist (l := t ++ r) (p := isPySpace)).length_le
      rw [h] at hlen
      simp at hlen
    · rw [if_neg hp]

theorem pyStrip_idem (t : String) : pyStrip (pyStrip t) = pyStrip t := by
  show String.mk ((((pyStrip t).data.dropWhile isPySpace).rdropWhile isPySpace)) = _
  have hdata : (pyStrip t).data
      = (t.data.dropWhile isPySpace).rdropWhile isPySpace := rfl
  rw [hdata,
    dropWhile_rdropWhile_self (t.data.dropWhile isPySpace)
      (List.dropWhile_idempotent isPySpace t.data),
    List.rdropWhile_idempotent]
  rfl

theorem filterMap_strip_eq {β : Type} (f : String → β) (l : List String) :
    l.filterMap (fun s => if pyStrip s = "" then none else some (f (pyStrip s)))
      = (l.filter fun s => pyStrip s ≠ "").map (fun s => f (pyStrip s)) := by
  induction l with
  | nil => rfl
  | cons s r ih =>
    by_cases h : pyStrip s = "" <;>
      simp [List.filterMap_cons, List.filter_cons, h, ih]

/-- C4: the suggestion and debug post-processing drops blank lines,
strips the surviving lines, and keeps them in their original relative
order: both lists are exactly the stripped non-blank lines of the split
input, in order (the debug variant wrapping each in an `issue` record),
and no entry of the suggestion list is blank. -/
theorem postprocess_drops_blanks_preserves_order (text : String) :
    stripNonBlankLines text
        = ((pySplit text '\n').filter fun s => pyStrip s ≠ "").map pyStrip ∧
    debugRecords text
        = (((pySplit text '\n').filter fun s => pyStrip s ≠ "").map pyStrip).map
            (fun s => [("issue", PyVal.str s)]) ∧
    ∀ x ∈ stripNonBlankLines text, pyStrip x = x ∧ x ≠ "" := by
  refine ⟨filterMap_strip_eq id _, ?_, ?_⟩
  · rw [List.map_map]
    exact filterMap_strip_eq (fun s => [("issue", PyVal.str s)]) _
  · intro x hx
    rw [stripNonBlankLines] at hx
    obtain ⟨s, hs, hsx⟩ := List.mem_filterMap.mp hx
    by_cases h : pyStrip s = ""
    · simp [h] at hsx
    · simp only [h, if_false, Option.some_inj] at hsx
      subst hsx
      exact ⟨pyStrip_idem s, h⟩

/-! ### Claims about the service layer -/

/-- C5: the suggest, debug and what-if operations run no syntax pre-check:
the chain (network call) is always invoked, for arbitrary input text, and
none of the three ever produces the syntax-error result. -/
theorem no_precheck_ops_always_reach_llm (env : ChainEnv) (code q : String) :
    (get_code_suggestions env code).llmInvoked = true ∧
    (get_code_debugging_info env code).llmInvoked = true ∧
    (answer_what_if_question env code q).llmInvoked = true ∧
    List.lookup "error" (get_code_suggestions env code).result
        ≠ some (PyVal.str syntaxErrorMsg) ∧
    List.lookup "error" (get_code_debugging_info env code).result
        ≠ some (PyVal.str syntaxErrorMsg) ∧
    List.lookup "error" (answer_what_if_question env code q).result
        ≠ some (PyVal.str syntaxErrorMsg) := by
  refine ⟨?_, ?_, ?_, ?_, ?_, ?_⟩
  · cases h : env.suggest code <;> simp [get_code_suggestions, h]
  · cases h : env.debug code <;> simp [get_code_debugging_info, h]
  · cases h : env.whatIf code q <;> simp [answer_what_if_question, h]
  · cases h : env.suggest code <;>
      simp [get_code_suggestions, h, List.lookup, syntaxErrorMsg]
  · cases h : env.debug code <;>
      simp [get_code_debugging_info, h, List.lookup, syntaxErrorMsg]
  · cases h : env.whatIf code q <;>
      simp [answer_what_if_question, h, List.lookup, syntaxErrorMsg]

/-- C9: every result dict of the four service functions has exactly one
key: the payload field of the operation, or `error` — never both, never
neither. -/
theorem service_results_exactly_one_key
    (astParse : String → Except String PyModule) (env : ChainEnv) (code q : String) :
    (resultKeys (get_code_explanation astParse env code).result = ["overall_summary"] ∨
     resultKeys (get_code_explanation astParse env code).result = ["error"]) ∧
    (resultKeys (get_code_suggestions env code).result = ["suggestions"] ∨
     resultKeys (get_code_suggestions env code).result = ["error"]) ∧
    (resultKeys (get_code_debugging_info env code).result = ["potential_bugs"] ∨
     resultKeys (get_code_debugging_info env code).result = ["error"]) ∧
    (resultKeys (answer_what_if_question env code q).result = ["explanation"] ∨
     resultKeys (answer_what_if_question env code q).result = ["error"]) := by
  refine ⟨?_, ?_, ?_, ?_⟩
  · cases hp : parse_python_code astParse code with
    | none => exact .inr (by simp [get_code_explanation, hp, resultKeys])
    | some t =>
      cases he : env.explain code with
      | error e => exact .inr (by simp [get_code_explanation, hp, he, resultKeys])
      | ok s => exact .inl (by simp [get_code_explanation, hp, he, resultKeys])
  · cases he : env.suggest code with
    | error e => exact .inr (by simp [get_code_suggestions, he, resultKeys])
    | ok s => exact .inl (by simp [get_code_suggestions, he, resultKeys])
  · cases he : env.debug code with
    | error e => exact .inr (by simp [get_code_debugging_info, he, resultKeys])
    | ok s => exact .inl (by simp [get_code_debugging_info, he, resultKeys])
  · cases he : env.whatIf code q with
    | error e => exact .inr (by simp [answer_what_if_question, he, resultKeys])
    | ok s => exact .inl (by simp [answer_what_if_question, he, resultKeys])

/-- C10: on a successful debug chain call, each record of the
`potential_bugs` list has exactly the single key `issue`, holds a
non-blank stripped line of the response, and carries no `line` key. -/
theorem debug_records_single_issue_key (env : ChainEnv) (code text : String)
    (h : env.debug code = Except.ok text) :
    (get_code_debugging_info env code).result
        = [("potential_bugs", PyVal.list ((debugRecords text).map PyVal.dict))] ∧
    ∀ r ∈ debugRecords text,
      r.map Prod.fst = ["issue"] ∧
      List.lookup "line" r = none ∧
      ∃ line ∈ pySplit text '\n',
        pyStrip line ≠ "" ∧ r = [("issue", PyVal.str (pyStrip line))] := by
  refine ⟨by simp [get_code_debugging_info, h], ?_⟩
  intro r hr
  rw [debugRecords] at hr
  obtain ⟨line, hline, hlr⟩ := List.mem_filterMap.mp hr
  by_cases hb : pyStrip line = ""
  · simp [hb] at hlr
  · simp only [hb, if_false, Option.some_inj] at hlr
    subst hlr
    exact ⟨rfl, rfl, line, hline, hb, rfl⟩

/-- Witness for C10 at the concrete response text `bug one`. -/
theorem debug_records_single_issue_key_witness :
    (get_code_debugging_info (constChains "bug one") "x").result
        = [("potential_bugs", PyVal.list ((debugRecords "bug one").map PyVal.dict))] ∧
    ([("issue", PyVal.str "bug one")] : PyDict).map Prod.fst = ["issue"] ∧
    List.lookup "line" ([("issue", PyVal.str "bug one")] : PyDict) = none := by
  have h := debug_records_single_issue_key (constChains "bug one") "x" "bug one" rfl
  have hm : ([("issue", PyVal.str "bug one")] : PyDict) ∈ debugRecords "bug one" := by
    show _ ∈ ([[("issue", PyVal.str "bug one")]] : List PyDict)
    exact List.mem_singleton.mpr rfl
  exact ⟨h.1, (h.2 _ hm).1, (h.2 _ hm).2.1⟩

/-! ### Claims about the endpoints -/

/-- C6: a missing required field (falsy `code` on any of the four POST
endpoints, falsy `user_question` on `/whatif`) yields an HTTP 400 with
the fixed message of that endpoint, and no service work or network call
happens. -/
theorem endpoints_missing_required_field
    (astParse : String → Except String PyModule) (env : ChainEnv)
    (payload : CodeInput) :
    (payload.code = "" →
      explain_code astParse env payload = (.error ⟨400, "No code provided"⟩, false) ∧
      suggest_improvements env payload = (.error ⟨400, "No code provided"⟩, false) ∧
      debug_code env payload = (.error ⟨400, "No code provided"⟩, false) ∧
      what_if_scenario env payload
          = (.error ⟨400, "Code and user question required"⟩, false)) ∧
    (optStrFalsy payload.user_question = true →
      what_if_scenario env payload
          = (.error ⟨400, "Code and user question required"⟩, false)) := by
  constructor
  · intro h
    refine ⟨?_, ?_, ?_, ?_⟩ <;>
      simp [explain_code, suggest_improvements, debug_code, what_if_scenario, h]
  · intro h
    simp [what_if_scenario, h]

/-- Witness for C6: empty `code`, and separately a missing
`user_question` on `/whatif`. -/
theorem endpoints_missing_required_field_witness :
    explain_code failParse (constChains "ok") ⟨"", "python", some "q"⟩
        = (.error ⟨400, "No code provided"⟩, false) ∧
    suggest_improvements (constChains "ok") ⟨"", "python", some "q"⟩
        = (.error ⟨400, "No code provided"⟩, false) ∧
    debug_code (constChains "ok") ⟨"", "python", some "q"⟩
        = (.error ⟨400, "No code provided"⟩, false) ∧
    what_if_scenario (constChains "ok") ⟨"", "python", some "q"⟩
        = (.error ⟨400, "Code and user question required"⟩, false) ∧
    what_if_scenario (constChains "ok") ⟨"print(1)", "python", none⟩
        = (.error ⟨400, "Code and user question required"⟩, false) := by
  have h1 := (endpoints_missing_required_field failParse (constChains "ok")
    ⟨"", "python", some "q"⟩).1 rfl
  have h2 := (endpoints_missing_required_field failParse (constChains "ok")
    ⟨"print(1)", "python", none⟩).2 rfl
  exact ⟨h1.1, h1.2.1, h1.2.2.1, h1.2.2.2, h2⟩

/-- C2 (counterexample): on the invalid program `def f(:`, the `/explain`
handler does not return a normal response carrying the error string — it
raises an HTTP 500 `HTTPException` whose detail is the syntax-error
message. -/
theorem explain_code_syntax_error_http_counterexample :
    explain_code failParse (constChains "ok") ⟨"def f(:", "python", none⟩
        = (Except.error ⟨500, syntaxErrorMsg⟩, false) := rfl

/-- C2 (amended): when the syntax pre-check fails on `/explain` (with a
non-empty `code`), the error is surfaced as an HTTP 500 error whose
detail is the syntax-error string, not as an `error` field of a normal
response body. -/
theorem explain_code_syntax_error_http_500
    (astParse : String → Except String PyModule) (env : ChainEnv)
    (payload : CodeInput) (hcode : payload.code ≠ "")
    (hparse : parse_python_code astParse payload.code = none) :
    explain_code astParse env payload
        = (Except.error ⟨500, syntaxErrorMsg⟩, false) := by
  simp [explain_code, hcode, get_code_explanation, hparse, errTruthy,
    lookupStr, List.lookup, syntaxErrorMsg]

/-- Witness for the amended C2 at the concrete invalid program
`def f(:`. -/
theorem explain_code_syntax_error_http_500_witness :
    explain_code failParse (constChains "ok") ⟨"def f(:", "python", none⟩
        = (Except.error ⟨500, syntaxErrorMsg⟩, false) :=
  explain_code_syntax_error_http_500 failParse (constChains "ok")
    ⟨"def f(:", "python", none⟩ (by decide) rfl

/-! ### The provider-initialization claim -/

/-- C7: an unsupported provider name, an absent (or empty) credential, or
a failing client construction each leave `llm` as `None`, so importing
the module raises the `RuntimeError` and the process refuses to start. -/
theorem misconfigured_provider_aborts_startup (env : InitEnv)
    (h : List.lookup (LLM_PROVIDER env) PROVIDER_CONFIG = none ∨
      ∃ model keyName,
        List.lookup (LLM_PROVIDER env) PROVIDER_CONFIG = some (model, keyName) ∧
        (optStrFalsy (env.getenv keyName) = true ∨
         ∃ e, env.construct (LLM_PROVIDER env) model = .error e)) :
    moduleInit env = .error runtimeErrorMsg := by
  rcases h with h | ⟨model, keyName, hlk, hfail⟩
  · simp [moduleInit, initLLM, h]
  · rcases hfail with hkey | ⟨e, hc⟩
    · simp [moduleInit, initLLM, hlk, hkey]
    · cases hof : optStrFalsy (env.getenv keyName) <;>
        simp [moduleInit, initLLM, hlk, hc, hof]

/-- Witness for C7: with no environment variables at all, the default
provider is `groq`, its key is absent, and startup aborts. -/
theorem misconfigured_provider_aborts_startup_witness :
    moduleInit emptyInitEnv = .error runtimeErrorMsg :=
  misconfigured_provider_aborts_startup emptyInitEnv
    (Or.inr ⟨"llama3-8b-8192", "GROQ_API_KEY", rfl, Or.inl rfl⟩)

end CodeMentor
